import Mathlib

/-!
Verification of the time-series normalization and trend-derivation pipeline of the
White-River-Basin dashboard.

The embedding models the pipeline functions of `src/pages/DamDetail.tsx` and
`src/components/dam/DamStatusCards.tsx` as pure Lean functions.

Number model: JavaScript numbers are modelled as exact rationals (`ℚ`); IEEE-754
rounding is out of model.  NaN is modelled as `Option.none` where a single parse
result flows (`parseInt`, `parseFloat`), and the axis-domain calculator, whose
specification explicitly concerns non-finite values, works over an extended type
`JSNum` with `nan`, `posInf` and `negInf` constructors.  The `parseFloat` model
covers sign, decimal digits, fraction and exponent (the `Infinity` keyword is not
modelled; no input in the repository produces it), split into a discrete digit
scanner `floatParts` and a rational assembly `floatValue`.  Timestamps are
milliseconds since the Unix epoch (`Int`), with the local time zone taken as UTC:
every record is resolved by the same parser, so a fixed offset does not affect
any claim.  The current clock reading is passed explicitly as a `now : Int`
argument, making the implicit `new Date()` dependence of the source an explicit
input.  `String.prototype.split` with a one-character separator (the only form
the source uses) is modelled by the structural `jsSplitChar`.
-/

namespace WhiteRiver

/-- JavaScript whitespace recognised at the front of numeric strings. -/
def isJsWhitespace (c : Char) : Bool :=
  c = ' ' ∨ c = '\t' ∨ c = '\n' ∨ c = '\r'

/-- Read an optional leading sign, returning the sign factor and remainder. -/
def readSign : List Char → Int × List Char
  | '+' :: cs => (1, cs)
  | '-' :: cs => (-1, cs)
  | cs => (1, cs)

/-- Value of a hexadecimal digit character. -/
def digitVal16 (c : Char) : Option Nat :=
  if '0' ≤ c ∧ c ≤ '9' then some (c.toNat - '0'.toNat)
  else if 'a' ≤ c ∧ c ≤ 'f' then some (c.toNat - 'a'.toNat + 10)
  else if 'A' ≤ c ∧ c ≤ 'F' then some (c.toNat - 'A'.toNat + 10)
  else none

/-- Value of a digit character in the given radix (10 or 16 here). -/
def digitValIn (radix : Nat) (c : Char) : Option Nat :=
  match digitVal16 c with
  | some v => if v < radix then some v else none
  | none => none

/-- Model of the JavaScript global `parseInt` applied to the characters of a
string with no radix argument: skip leading whitespace, read an optional sign,
auto-detect a `0x`/`0X` hexadecimal marker, then read the longest digit run;
`none` models `NaN`. -/
def jsParseIntChars (cs0 : List Char) : Option Int :=
  let cs := cs0.dropWhile isJsWhitespace
  let sc := readSign cs
  let rc : Nat × List Char :=
    match sc.2 with
    | '0' :: c :: rest => if c = 'x' ∨ c = 'X' then (16, rest) else (10, sc.2)
    | _ => (10, sc.2)
  let ds := rc.2.takeWhile (fun c => (digitValIn rc.1 c).isSome)
  if ds.isEmpty then none
  else some (sc.1 * (ds.foldl (fun a c => a * rc.1 + (digitValIn rc.1 c).getD 0) (0 : Nat) : Nat))

/-- `parseInt` applied to a possibly-undefined split component;
`parseInt(undefined)` is `NaN` (the string form `"undefined"` has no digits). -/
def jsParseIntList : Option (List Char) → Option Int
  | none => none
  | some cs => jsParseIntChars cs

/-- `String.prototype.split` with a one-character separator, on character lists;
`"".split(sep)` is `[""]` and separators at the ends produce empty components. -/
def jsSplitChar (sep : Char) : List Char → List (List Char)
  | [] => [[]]
  | c :: cs =>
    let r := jsSplitChar sep cs
    if c = sep then [] :: r
    else
      match r with
      | [] => [[c]]
      | h :: t => (c :: h) :: t

/-- Decimal value of a digit run. -/
def natOfDigits (ds : List Char) : Nat :=
  ds.foldl (fun a c => a * 10 + (c.toNat - '0'.toNat)) 0

/-- The discrete content of a successful `parseFloat` scan: sign factor, integer
digits value, fraction digits value and count, and exponent. -/
structure FloatParts where
  sign : Int
  intVal : Nat
  fracVal : Nat
  fracLen : Nat
  exp : Int
deriving DecidableEq, Repr

/-- Digit scanner of the JavaScript global `parseFloat`: skip leading whitespace,
read an optional sign, digits, an optional fraction and an optional exponent,
ignoring any trailing garbage; `none` models `NaN` (no digit at all). -/
def floatParts (s : String) : Option FloatParts :=
  let cs := s.data.dropWhile isJsWhitespace
  let sc := readSign cs
  let intPart := sc.2.takeWhile Char.isDigit
  let rest1 := sc.2.dropWhile Char.isDigit
  let fp : List Char × List Char :=
    match rest1 with
    | '.' :: r => (r.takeWhile Char.isDigit, r.dropWhile Char.isDigit)
    | _ => ([], rest1)
  if intPart.isEmpty ∧ fp.1.isEmpty then none
  else
    let exp : Int :=
      match fp.2 with
      | c :: r =>
        if c = 'e' ∨ c = 'E' then
          let es := readSign r
          let eds := es.2.takeWhile Char.isDigit
          if eds.isEmpty then 0 else es.1 * (natOfDigits eds : Nat)
        else 0
      | [] => 0
    some { sign := sc.1, intVal := natOfDigits intPart, fracVal := natOfDigits fp.1,
           fracLen := fp.1.length, exp := exp }

/-- Rational value of a `parseFloat` scan (exact; no IEEE rounding). -/
def floatValue (p : FloatParts) : ℚ :=
  let mant : ℚ := (p.intVal : ℚ) + (p.fracVal : ℚ) / (10 : ℚ) ^ p.fracLen
  let scaled : ℚ :=
    if 0 ≤ p.exp then mant * (10 : ℚ) ^ p.exp.toNat else mant / (10 : ℚ) ^ (-p.exp).toNat
  (p.sign : ℚ) * scaled

/-- Model of the JavaScript global `parseFloat` on a string. -/
def jsParseFloatStr (s : String) : Option ℚ :=
  (floatParts s).map floatValue

/-- `parseFloat` applied to a possibly-undefined string. -/
def jsParseFloat : Option String → Option ℚ
  | none => none
  | some s => jsParseFloatStr s

/-- Model of `x || d` on a JavaScript number `x`: `NaN` (here `none`) and `0` are
falsy and replaced by the default. -/
def jsOr (x : Option ℚ) (d : ℚ) : ℚ :=
  match x with
  | none => d
  | some v => if v = 0 then d else v

/-! ## JavaScript `Date` model

`daysFromCivil` is the standard civil-calendar day-number computation (proleptic
Gregorian, day 0 = 1970-01-01); `jsMakeDay` adds the ECMAScript month rollover of
`MakeDay`, and `newDateDays` the two-digit-year mapping of the `Date(y, m, d)`
constructor.  `timeClip` is the ±8.64e15 ms range check of ECMAScript `TimeClip`;
out-of-range times are Invalid Dates, modelled as `none`. -/

/-- Day number of a civil date (month in 1..12, day arbitrary for rollover). -/
def daysFromCivil (y m d : Int) : Int :=
  let yAdj := y - (if m ≤ 2 then 1 else 0)
  let era := Int.ediv yAdj 400
  let yoe := yAdj - era * 400
  let mp := Int.emod (m + 9) 12
  let doy := Int.ediv (153 * mp + 2) 5 + d - 1
  let doe := yoe * 365 + Int.ediv yoe 4 - Int.ediv yoe 100 + doy
  era * 146097 + doe - 719468

/-- ECMAScript `MakeDay`: normalise the zero-based month index into the year by
floor division, then take the day number with day-of-month rollover. -/
def jsMakeDay (year monthIndex day : Int) : Int :=
  let ym := year * 12 + monthIndex
  let y := Int.ediv ym 12
  let m := Int.emod ym 12
  daysFromCivil y (m + 1) day

/-- Day number produced by `new Date(year, monthIndex, day)`: a year argument in
0..99 is interpreted as 1900 + year. -/
def newDateDays (year monthIndex day : Int) : Int :=
  let yr := if 0 ≤ year ∧ year ≤ 99 then 1900 + year else year
  jsMakeDay yr monthIndex day

/-- ECMAScript `TimeClip`: times beyond ±8,640,000,000,000,000 ms are invalid. -/
def timeClip (t : Int) : Option Int :=
  if t.natAbs ≤ 8640000000000000 then some t else none

/-- Embedding of `parseDateTime` (`src/pages/DamDetail.tsx` lines 20-37, repeated
verbatim in `src/components/dam/Visualization.tsx` lines 23-40).  A falsy (empty)
date string returns the current moment `now`.  Otherwise the date is split on
`.` into day/month/year, each read with `parseInt`, and a `Date` is constructed at
local midnight; a given non-empty time string is split on `:` and `setHours`
overwrites the time of day.  Any `NaN` component makes the constructed `Date`
invalid (`none`).  Nothing in the body can throw, so the source's catch branch
(which would also return the current moment) is unreachable. -/
def parseDateTime (now : Int) (dateStr : String) (timeStr : Option String) : Option Int :=
  if dateStr = "" then some now
  else
    let parts := jsSplitChar '.' dateStr.data
    let day := jsParseIntList parts[0]?
    let month := jsParseIntList parts[1]?
    let year := jsParseIntList parts[2]?
    match year, month, day with
    | some y, some mo, some d =>
      let base := timeClip (newDateDays y (mo - 1) d * 86400000)
      match timeStr with
      | none => base
      | some ts =>
        if ts = "" then base
        else
          let tparts := jsSplitChar ':' ts.data
          let hours := jsParseIntList tparts[0]?
          let minutes := jsParseIntList tparts[1]?
          match base, hours, minutes with
          | some b, some hh, some mm => timeClip (b + hh * 3600000 + mm * 60000)
          | _, _, _ => none
    | _, _, _ => none

/-! ## Data model (spec §3) -/

/-- One telemetry observation; every field is an optional string exactly as in the
loosely typed records the source reads. -/
structure TelemetryRecord where
  date : Option String := none
  time : Option String := none
  waterLevel : Option String := none
  inflow : Option String := none
  totalOutflow : Option String := none
  powerHouseDischarge : Option String := none
  spillwayRelease : Option String := none
  rainfall : Option String := none
  liveStorage : Option String := none
  storagePercentage : Option String := none
  lakeWaterTemp : Option String := none
deriving DecidableEq, Repr

/-- Station configuration with string-encoded threshold levels (spec §3). -/
structure DamConfig where
  FRL : Option String := none
  redLevel : Option String := none
  orangeLevel : Option String := none
  blueLevel : Option String := none
  liveStorageAtFRL : Option String := none
deriving DecidableEq, Repr

/-! ## Numeric Coercer (`parseNumber`, `src/pages/DamDetail.tsx` lines 39-45) -/

/-- `value.replace(/,/g, '').replace(/%/g, '')`. -/
def stripCommasPercent (s : String) : String :=
  String.mk (s.data.filter (fun c => ¬ (c = ',' ∨ c = '%')))

/-- JavaScript `String.prototype.trim` restricted to the whitespace we model. -/
def jsTrim (s : String) : String :=
  String.mk (((s.data.dropWhile isJsWhitespace).reverse.dropWhile isJsWhitespace).reverse)

/-- Embedding of `parseNumber`: undefined, empty or all-whitespace input yields 0;
otherwise commas and percent signs are stripped, the result is read with
`parseFloat`, and `NaN` falls back to 0. -/
def parseNumber (value : Option String) : ℚ :=
  match value with
  | none => 0
  | some v =>
    if v = "" ∨ jsTrim v = "" then 0
    else
      match jsParseFloatStr (stripCommasPercent v) with
      | none => 0
      | some parsed => parsed

/-! ## Axis Domain Calculator (`calculateAxisDomain`, `src/pages/DamDetail.tsx`
lines 47-58)

The function receives arrays that may contain `undefined` entries and any
JavaScript number, so here the elements are `Option JSNum` (`none` = undefined)
over an extended number type with infinities and `NaN`. -/

/-- JavaScript numbers for the axis-domain calculator: finite rational, the two
infinities, or `NaN`. -/
inductive JSNum where
  | fin : ℚ → JSNum
  | posInf : JSNum
  | negInf : JSNum
  | nan : JSNum
deriving DecidableEq, Repr

/-- Strict `===` on numbers: `NaN === NaN` is false. -/
def jsEq : JSNum → JSNum → Bool
  | .nan, _ => false
  | _, .nan => false
  | a, b => a = b

/-- `Math.min` on two numbers (`NaN` absorbs). -/
def jsMin : JSNum → JSNum → JSNum
  | .nan, _ => .nan
  | _, .nan => .nan
  | .negInf, _ => .negInf
  | _, .negInf => .negInf
  | .posInf, b => b
  | a, .posInf => a
  | .fin a, .fin b => .fin (min a b)

/-- `Math.max` on two numbers (`NaN` absorbs). -/
def jsMax : JSNum → JSNum → JSNum
  | .nan, _ => .nan
  | _, .nan => .nan
  | .posInf, _ => .posInf
  | _, .posInf => .posInf
  | .negInf, b => b
  | a, .negInf => a
  | .fin a, .fin b => .fin (max a b)

/-- IEEE addition on the extended numbers (opposite infinities give `NaN`). -/
def jsAdd : JSNum → JSNum → JSNum
  | .nan, _ => .nan
  | _, .nan => .nan
  | .posInf, .negInf => .nan
  | .negInf, .posInf => .nan
  | .posInf, _ => .posInf
  | _, .posInf => .posInf
  | .negInf, _ => .negInf
  | _, .negInf => .negInf
  | .fin a, .fin b => .fin (a + b)

/-- IEEE subtraction on the extended numbers. -/
def jsSub : JSNum → JSNum → JSNum
  | .nan, _ => .nan
  | _, .nan => .nan
  | .posInf, .posInf => .nan
  | .negInf, .negInf => .nan
  | .posInf, _ => .posInf
  | .negInf, _ => .negInf
  | .fin _, .posInf => .negInf
  | .fin _, .negInf => .posInf
  | .fin a, .fin b => .fin (a - b)

/-- IEEE multiplication on the extended numbers (infinity times zero is `NaN`). -/
def jsMul : JSNum → JSNum → JSNum
  | .nan, _ => .nan
  | _, .nan => .nan
  | .posInf, .posInf => .posInf
  | .posInf, .negInf => .negInf
  | .negInf, .posInf => .negInf
  | .negInf, .negInf => .posInf
  | .posInf, .fin b => if b = 0 then .nan else if 0 < b then .posInf else .negInf
  | .negInf, .fin b => if b = 0 then .nan else if 0 < b then .negInf else .posInf
  | .fin a, .posInf => if a = 0 then .nan else if 0 < a then .posInf else .negInf
  | .fin a, .negInf => if a = 0 then .nan else if 0 < a then .negInf else .posInf
  | .fin a, .fin b => .fin (a * b)

/-- The filter of `calculateAxisDomain`: `typeof val === 'number' && !isNaN(val)
&& val !== undefined` keeps every defined non-`NaN` number — the infinities pass. -/
def validAxisData (data : List (Option JSNum)) : List JSNum :=
  data.filterMap (fun v =>
    match v with
    | some x => if x ≠ JSNum.nan then some x else none
    | none => none)

/-- Embedding of `calculateAxisDomain`: default `[0, 100]` on empty data, a
`[0.9v, 1.1v]` band when `min === max`, otherwise 5% padding on both ends.
`Math.min(...)`/`Math.max(...)` fold from their empty-call values `+∞`/`−∞`. -/
def calculateAxisDomain (data : List (Option JSNum)) : JSNum × JSNum :=
  let validData := validAxisData data
  if validData.length = 0 then (JSNum.fin 0, JSNum.fin 100)
  else
    let mn := validData.foldl jsMin JSNum.posInf
    let mx := validData.foldl jsMax JSNum.negInf
    if jsEq mn mx then
      (jsMul mn (JSNum.fin (9/10)), jsMul mn (JSNum.fin (11/10)))
    else
      let padding := jsMul (jsSub mx mn) (JSNum.fin (1/20))
      (jsSub mn padding, jsAdd mx padding)

/-! ## Range Filter (`filteredData`, `src/pages/DamDetail.tsx` lines 107-128) -/

/-- The filter step: a null entry or a falsy `date` is dropped; otherwise the
record's timestamp is resolved with `parseDateTime` and `isWithinInterval` keeps
it when `start ≤ t ≤ finish` (both inclusive; an invalid date compares false). -/
def keepRecord (now start finish : Int) (it : Option TelemetryRecord) :
    Option TelemetryRecord :=
  match it with
  | none => none
  | some item =>
    match item.date with
    | none => none
    | some d =>
      if d = "" then none
      else
        match parseDateTime now d item.time with
        | none => none
        | some t => if start ≤ t ∧ t ≤ finish then some item else none

/-- Sort key `parseDateTime(a.date, a.time).getTime()`; every record reaching the
sort has a valid timestamp, so the `getD` default is never used. -/
def sortKey (now : Int) (item : TelemetryRecord) : Int :=
  (parseDateTime now (item.date.getD "") item.time).getD 0

/-- Embedding of the `filteredData` pipeline: filter by the inclusive interval and
sort ascending by resolved timestamp.  `Array.prototype.sort` is stable, modelled
by the stable `List.mergeSort`. -/
def filterByRange (now : Int) (records : List (Option TelemetryRecord))
    (start finish : Int) : List TelemetryRecord :=
  (records.filterMap (keepRecord now start finish)).mergeSort
    (fun a b => sortKey now a ≤ sortKey now b)

/-! ## Trend Estimator (`calculateWaterLevelTrend`,
`src/components/dam/DamStatusCards.tsx` lines 44-97)

The internal constants of the source function are factored into named definitions
carrying the source's local names. -/

inductive Trend where
  | stable : Trend
  | rising : Trend
  | falling : Trend
deriving DecidableEq, Repr

inductive Confidence where
  | low : Confidence
  | medium : Confidence
  | high : Confidence
deriving DecidableEq, Repr

/-- Result object of `calculateWaterLevelTrend`; the early return for a missing
current record carries no `hourlyChangeInches` and no `netFlow` (undefined). -/
structure TrendResult where
  hourlyChange : ℚ
  hourlyChangeInches : Option ℚ
  trend : Trend
  confidence : Confidence
  netFlow : Option ℚ
deriving DecidableEq, Repr

/-- `const inflow = parseFloat(currentData.inflow) || 0`. -/
def inflowOf (cd : TelemetryRecord) : ℚ := jsOr (jsParseFloat cd.inflow) 0

/-- `const outflow = parseFloat(currentData.totalOutflow) || 0`. -/
def outflowOf (cd : TelemetryRecord) : ℚ := jsOr (jsParseFloat cd.totalOutflow) 0

/-- `const netFlow = inflow - outflow`. -/
def netFlow (cd : TelemetryRecord) : ℚ := inflowOf cd - outflowOf cd

/-- `const currentLevel = parseFloat(currentData.waterLevel) || 552`. -/
def currentLevel (cd : TelemetryRecord) : ℚ := jsOr (jsParseFloat cd.waterLevel) 552

/-- `const surfaceAreaAcres = 22000 + ((currentLevel - 552) / (580 - 552)) * 2000`. -/
def surfaceAreaAcres (cd : TelemetryRecord) : ℚ :=
  22000 + ((currentLevel cd - 552) / (580 - 552)) * 2000

/-- `hourlyChangeFeet = (netFlow * 3600) / (surfaceAreaAcres * 43560)`. -/
def hourlyChangeFeet (cd : TelemetryRecord) : ℚ :=
  (netFlow cd * 3600) / (surfaceAreaAcres cd * 43560)

/-- Flow-based classification: `|Δ| > 0.01` high rising/falling, `|Δ| > 0.005`
medium rising/falling, otherwise the trend stays `stable` at low confidence. -/
def flowTrendConf (h : ℚ) : Trend × Confidence :=
  if 1/100 < |h| then ((if 0 < h then Trend.rising else Trend.falling), Confidence.high)
  else if 1/200 < |h| then ((if 0 < h then Trend.rising else Trend.falling), Confidence.medium)
  else (Trend.stable, Confidence.low)

/-- Recent-sample override: with at least 3 recent records, the level difference
between the newest sample and the one two places later replaces the flow-based
classification at high confidence when its magnitude exceeds 0.05 ft; an
unparseable level makes the difference `NaN`, whose comparison is false. -/
def recentOverride (recentData : Option (List TelemetryRecord))
    (tc : Trend × Confidence) : Trend × Confidence :=
  match recentData with
  | none => tc
  | some rd =>
    if 3 ≤ rd.length then
      let recent3Hours := (rd.take 3).map (fun d => jsParseFloat d.waterLevel)
      match recent3Hours[0]?, recent3Hours[2]? with
      | some (some a), some (some c) =>
        if 1/20 < |a - c| then
          ((if 0 < a - c then Trend.rising else Trend.falling), Confidence.high)
        else tc
      | _, _ => tc
    else tc

/-- Embedding of `calculateWaterLevelTrend`. -/
def calculateWaterLevelTrend (currentData : Option TelemetryRecord)
    (recentData : Option (List TelemetryRecord)) : TrendResult :=
  match currentData with
  | none =>
    { hourlyChange := 0, hourlyChangeInches := none, trend := Trend.stable,
      confidence := Confidence.low, netFlow := none }
  | some cd =>
    let tc := recentOverride recentData (flowTrendConf (hourlyChangeFeet cd))
    { hourlyChange := hourlyChangeFeet cd,
      hourlyChangeInches := some (hourlyChangeFeet cd * 12),
      trend := tc.1, confidence := tc.2, netFlow := some (netFlow cd) }

/-! ## Alert Zone Classifier (`getAlertZone`,
`src/components/dam/DamStatusCards.tsx` lines 19-24) -/

inductive Zone where
  | red : Zone
  | orange : Zone
  | blue : Zone
  | normal : Zone
deriving DecidableEq, Repr

/-- `x >= parseFloat(field)`: a `NaN` threshold compares false. -/
def jsGe (x : ℚ) : Option ℚ → Bool
  | none => false
  | some v => v ≤ x

/-- Embedding of `getAlertZone`: descending-priority inclusive threshold checks. -/
def getAlertZone (waterLevel : ℚ) (damData : DamConfig) : Zone :=
  if jsGe waterLevel (jsParseFloat damData.redLevel) then Zone.red
  else if jsGe waterLevel (jsParseFloat damData.orangeLevel) then Zone.orange
  else if jsGe waterLevel (jsParseFloat damData.blueLevel) then Zone.blue
  else Zone.normal

/-! ## Evaluation helpers

`floatParts` is a discrete computation the kernel can evaluate, while the
rational assembly `floatValue` is evaluated by `norm_num`; these lemmas glue the
two stages for concrete inputs. -/

lemma jsParseFloatStr_eq_of (s : String) (p : FloatParts) (q : ℚ)
    (h1 : floatParts s = some p) (h2 : floatValue p = q) :
    jsParseFloatStr s = some q := by
  rw [jsParseFloatStr, h1, Option.map_some', h2]

lemma jsParseFloatStr_none_of (s : String) (h1 : floatParts s = none) :
    jsParseFloatStr s = none := by
  rw [jsParseFloatStr, h1, Option.map_none']

lemma jsOr_some_of_ne (v d : ℚ) (h : v ≠ 0) : jsOr (some v) d = v := by
  simp [jsOr, h]

lemma jsOr_some_zero (d : ℚ) : jsOr (some 0) d = d := by
  simp [jsOr]

lemma jsOr_none (d : ℚ) : jsOr none d = d := rfl

lemma jsParseFloat_none : jsParseFloat none = none := rfl

lemma parseFloat_1000 : jsParseFloat (some "1000") = some 1000 :=
  jsParseFloatStr_eq_of "1000" ⟨1, 1000, 0, 0, 0⟩ 1000 (by decide) (by norm_num [floatValue])

lemma parseFloat_900 : jsParseFloat (some "900") = some 900 :=
  jsParseFloatStr_eq_of "900" ⟨1, 900, 0, 0, 0⟩ 900 (by decide) (by norm_num [floatValue])

lemma parseFloat_566 : jsParseFloat (some "566") = some 566 :=
  jsParseFloatStr_eq_of "566" ⟨1, 566, 0, 0, 0⟩ 566 (by decide) (by norm_num [floatValue])

/-- The concrete current record of the trend example in spec §8. -/
def trendExampleRecord : TelemetryRecord :=
  { inflow := some "1000", totalOutflow := some "900", waterLevel := some "566" }

/-- The concrete threshold configuration of the zone examples in spec §8. -/
def zoneExampleConfig : DamConfig :=
  { redLevel := some "580", orangeLevel := some "575", blueLevel := some "570" }

lemma inflow_example : inflowOf trendExampleRecord = 1000 := by
  rw [inflowOf]
  show jsOr (jsParseFloat (some "1000")) 0 = 1000
  rw [parseFloat_1000, jsOr_some_of_ne _ _ (by norm_num)]

lemma outflow_example : outflowOf trendExampleRecord = 900 := by
  rw [outflowOf]
  show jsOr (jsParseFloat (some "900")) 0 = 900
  rw [parseFloat_900, jsOr_some_of_ne _ _ (by norm_num)]

lemma netFlow_example : netFlow trendExampleRecord = 100 := by
  rw [netFlow, inflow_example, outflow_example]
  norm_num

lemma currentLevel_example : currentLevel trendExampleRecord = 566 := by
  rw [currentLevel]
  show jsOr (jsParseFloat (some "566")) 552 = 566
  rw [parseFloat_566, jsOr_some_of_ne _ _ (by norm_num)]

lemma surfaceArea_example : surfaceAreaAcres trendExampleRecord = 23000 := by
  rw [surfaceAreaAcres, currentLevel_example]
  norm_num

lemma hourlyChange_example : hourlyChangeFeet trendExampleRecord = 1/2783 := by
  rw [hourlyChangeFeet, netFlow_example, surfaceArea_example]
  norm_num

lemma parseFloat_zero : jsParseFloat (some "0") = some 0 :=
  jsParseFloatStr_eq_of "0" ⟨1, 0, 0, 0, 0⟩ 0 (by decide) (by norm_num [floatValue])

lemma parseFloat_comma1234 : jsParseFloat (some "1,234") = some 1 :=
  jsParseFloatStr_eq_of "1,234" ⟨1, 1, 0, 0, 0⟩ 1 (by decide) (by norm_num [floatValue])

lemma parseFloat_abc : jsParseFloat (some "abc") = none :=
  jsParseFloatStr_none_of "abc" (by decide)

lemma parseNumber_some_eval (v : String) (q : ℚ)
    (h0 : ¬ (v = "" ∨ jsTrim v = "")) (h1 : jsParseFloatStr (stripCommasPercent v) = some q) :
    parseNumber (some v) = q := by
  simp only [parseNumber]
  rw [if_neg h0, h1]

lemma parseNumber_some_none (v : String)
    (h1 : jsParseFloatStr (stripCommasPercent v) = none) :
    parseNumber (some v) = 0 := by
  simp only [parseNumber]
  split
  · rfl
  · rw [h1]

/-! ## Claim C1 -/

/-- C1: the claim says every parse failure of `parseDateTime` (missing field,
non-numeric token, malformed string such as "bad") returns the current moment.
In fact only a falsy (empty) date string returns the current moment; a non-empty
malformed string such as "bad" or "15.03" produces `NaN` components, and
`new Date(NaN, NaN, NaN)` is an Invalid Date (modelled `none`), not the current
time — the catch branch that would return the current moment is unreachable
because none of the operations in the try block can throw. -/
theorem parseDateTime_malformed_behavior (now : Int) :
    parseDateTime now "bad" none = none ∧
    parseDateTime now "15.03" none = none ∧
    parseDateTime now "" none = some now :=
  ⟨rfl, rfl, rfl⟩

/-! ## Claim C5 -/

/-- C5 counterexample: the claim says the inflow field is coerced by the Numeric
Coercer, so a comma-grouped inflow string "1,234" contributes 1234.  The source
uses raw `parseFloat`, which stops at the comma: with inflow "1,234" and outflow
"0" the computed net flow is 1, while the Numeric Coercer difference is 1234. -/
theorem netFlow_comma_counterexample :
    (calculateWaterLevelTrend (some { inflow := some "1,234", totalOutflow := some "0" })
        none).netFlow = some 1 ∧
    parseNumber (some "1,234") - parseNumber (some "0") = 1234 := by
  constructor
  · show some (netFlow { inflow := some "1,234", totalOutflow := some "0" }) = some 1
    rw [netFlow, inflowOf, outflowOf]
    show some (jsOr (jsParseFloat (some "1,234")) 0 - jsOr (jsParseFloat (some "0")) 0) = some 1
    rw [parseFloat_comma1234, parseFloat_zero, jsOr_some_zero, jsOr_some_of_ne _ _ (by norm_num)]
    norm_num
  · have h1 : parseNumber (some "1,234") = 1234 := by
      refine parseNumber_some_eval _ _ (by decide) ?_
      have hs : stripCommasPercent "1,234" = "1234" := by decide
      rw [hs]
      exact jsParseFloatStr_eq_of "1234" ⟨1, 1234, 0, 0, 0⟩ 1234 (by decide)
        (by norm_num [floatValue])
    have h2 : parseNumber (some "0") = 0 := by
      refine parseNumber_some_eval _ _ (by decide) ?_
      have hs : stripCommasPercent "0" = "0" := by decide
      rw [hs]
      exact jsParseFloatStr_eq_of "0" ⟨1, 0, 0, 0, 0⟩ 0 (by decide) (by norm_num [floatValue])
    rw [h1, h2]
    norm_num

/-- C5 amended: `netFlow` equals raw `parseFloat(inflow) || 0` minus raw
`parseFloat(totalOutflow) || 0` — missing or non-numeric fields contribute 0, but
commas and percent signs are not stripped, so "1,234" contributes only its prefix
1.  The recent-sample argument never affects the net flow. -/
theorem netFlow_amended_spec (cd : TelemetryRecord)
    (rd : Option (List TelemetryRecord)) :
    (calculateWaterLevelTrend (some cd) rd).netFlow
        = some (jsOr (jsParseFloat cd.inflow) 0 - jsOr (jsParseFloat cd.totalOutflow) 0) ∧
    (calculateWaterLevelTrend (some { inflow := some "1,234" }) none).netFlow = some 1 ∧
    (calculateWaterLevelTrend (some { }) none).netFlow = some 0 := by
  refine ⟨rfl, ?_, ?_⟩
  · show some (netFlow { inflow := some "1,234" }) = some 1
    rw [netFlow, inflowOf, outflowOf]
    show some (jsOr (jsParseFloat (some "1,234")) 0 - jsOr (jsParseFloat none) 0) = some 1
    rw [parseFloat_comma1234, jsParseFloat_none, jsOr_none, jsOr_some_of_ne _ _ (by norm_num)]
    norm_num
  · show some (netFlow { }) = some 0
    rw [netFlow, inflowOf, outflowOf]
    show some (jsOr (jsParseFloat none) 0 - jsOr (jsParseFloat none) 0) = some 0
    rw [jsParseFloat_none, jsOr_none]
    norm_num

/-! ## Claim C6 -/

lemma parseFloat_580 : jsParseFloat (some "580") = some 580 :=
  jsParseFloatStr_eq_of "580" ⟨1, 580, 0, 0, 0⟩ 580 (by decide) (by norm_num [floatValue])

lemma parseFloat_575 : jsParseFloat (some "575") = some 575 :=
  jsParseFloatStr_eq_of "575" ⟨1, 575, 0, 0, 0⟩ 575 (by decide) (by norm_num [floatValue])

lemma parseFloat_570 : jsParseFloat (some "570") = some 570 :=
  jsParseFloatStr_eq_of "570" ⟨1, 570, 0, 0, 0⟩ 570 (by decide) (by norm_num [floatValue])

/-- C6: `getAlertZone` checks the thresholds in descending priority with inclusive
comparisons, and on thresholds `{red: "580", orange: "575", blue: "570"}` maps
581 to red, 576 to orange, 571 to blue, 560 to normal, and the boundary 580 to
red. -/
theorem alertZone_spec :
    (∀ (level r o b : ℚ) (dd : DamConfig),
        jsParseFloat dd.redLevel = some r →
        jsParseFloat dd.orangeLevel = some o →
        jsParseFloat dd.blueLevel = some b →
        getAlertZone level dd =
          if r ≤ level then Zone.red
          else if o ≤ level then Zone.orange
          else if b ≤ level then Zone.blue
          else Zone.normal) ∧
    getAlertZone 581 zoneExampleConfig = Zone.red ∧
    getAlertZone 576 zoneExampleConfig = Zone.orange ∧
    getAlertZone 571 zoneExampleConfig = Zone.blue ∧
    getAlertZone 560 zoneExampleConfig = Zone.normal ∧
    getAlertZone 580 zoneExampleConfig = Zone.red := by
  have hgen : ∀ (level r o b : ℚ) (dd : DamConfig),
      jsParseFloat dd.redLevel = some r →
      jsParseFloat dd.orangeLevel = some o →
      jsParseFloat dd.blueLevel = some b →
      getAlertZone level dd =
        if r ≤ level then Zone.red
        else if o ≤ level then Zone.orange
        else if b ≤ level then Zone.blue
        else Zone.normal := by
    intro level r o b dd hr ho hb
    simp only [getAlertZone, hr, ho, hb, jsGe]
    by_cases h1 : r ≤ level <;> by_cases h2 : o ≤ level <;> by_cases h3 : b ≤ level <;>
      simp [h1, h2, h3]
  have hconf : ∀ level : ℚ, getAlertZone level zoneExampleConfig =
      if (580 : ℚ) ≤ level then Zone.red
      else if (575 : ℚ) ≤ level then Zone.orange
      else if (570 : ℚ) ≤ level then Zone.blue
      else Zone.normal := by
    intro level
    refine hgen level 580 575 570 zoneExampleConfig ?_ ?_ ?_
    · show jsParseFloat (some "580") = some 580
      exact parseFloat_580
    · show jsParseFloat (some "575") = some 575
      exact parseFloat_575
    · show jsParseFloat (some "570") = some 570
      exact parseFloat_570
  refine ⟨hgen, ?_, ?_, ?_, ?_, ?_⟩ <;> rw [hconf] <;> norm_num

/-- Witness for the general clause of `alertZone_spec` at a concrete station. -/
theorem alertZone_spec_witness :
    getAlertZone 578 zoneExampleConfig =
      if (580 : ℚ) ≤ 578 then Zone.red
      else if (575 : ℚ) ≤ 578 then Zone.orange
      else if (570 : ℚ) ≤ 578 then Zone.blue
      else Zone.normal :=
  alertZone_spec.1 578 580 575 570 zoneExampleConfig parseFloat_580 parseFloat_575
    parseFloat_570

/-! ## Claim C8 -/

/-- C8: `parseNumber` returns exactly 0 for undefined input and for every empty or
malformed string (non-numeric after stripping commas and percent signs), 1234.5
for "1,234.5" and 42 for "42%". -/
theorem parseNumber_spec :
    parseNumber none = 0 ∧
    parseNumber (some "") = 0 ∧
    (∀ s : String, jsParseFloatStr (stripCommasPercent s) = none →
        parseNumber (some s) = 0) ∧
    parseNumber (some "1,234.5") = 1234.5 ∧
    parseNumber (some "42%") = 42 := by
  refine ⟨rfl, rfl, fun s hs => parseNumber_some_none s hs, ?_, ?_⟩
  · refine parseNumber_some_eval _ _ (by decide) ?_
    have hs : stripCommasPercent "1,234.5" = "1234.5" := by decide
    rw [hs]
    refine jsParseFloatStr_eq_of "1234.5" ⟨1, 1234, 5, 1, 0⟩ 1234.5 (by decide) ?_
    norm_num [floatValue]
  · refine parseNumber_some_eval _ _ (by decide) ?_
    have hs : stripCommasPercent "42%" = "42" := by decide
    rw [hs]
    exact jsParseFloatStr_eq_of "42" ⟨1, 42, 0, 0, 0⟩ 42 (by decide) (by norm_num [floatValue])

/-- Witness for the malformed-string clause of `parseNumber_spec`. -/
theorem parseNumber_spec_witness : parseNumber (some "abc") = 0 :=
  parseNumber_spec.2.2.1 "abc" (jsParseFloatStr_none_of "abc" (by decide))

/-! ## Claim C9 -/

/-- C9: every pipeline function is deterministic — two runs on identical inputs
give identical outputs.  In this embedding each function is a pure function of
its explicit arguments (the wall clock enters only as the explicit `now`
argument), so the source performs no hidden state mutation; this holds in
particular for `parseDateTime` on malformed input. -/
theorem pipeline_deterministic :
    (∀ (now : Int) (d : String) (t : Option String),
        parseDateTime now d t = parseDateTime now d t) ∧
    (∀ v : Option String, parseNumber v = parseNumber v) ∧
    (∀ (now : Int) (records : List (Option TelemetryRecord)) (s e : Int),
        filterByRange now records s e = filterByRange now records s e) ∧
    (∀ data : List (Option JSNum), calculateAxisDomain data = calculateAxisDomain data) ∧
    (∀ (cd : Option TelemetryRecord) (rd : Option (List TelemetryRecord)),
        calculateWaterLevelTrend cd rd = calculateWaterLevelTrend cd rd) ∧
    (∀ (level : ℚ) (dd : DamConfig), getAlertZone level dd = getAlertZone level dd) ∧
    (∀ now : Int, parseDateTime now "bad" none = parseDateTime now "bad" none) :=
  ⟨fun _ _ _ => rfl, fun _ => rfl, fun _ _ _ _ => rfl, fun _ => rfl,
    fun _ _ => rfl, fun _ _ => rfl, fun _ => rfl⟩

/-! ## Claim C10 -/

/-- C10: when the current record's `waterLevel` is missing, unparseable, or parses
to 0, the trend estimator substitutes the default level 552 ft (`parseFloat(x) ||
552` treats `NaN` and 0 as falsy), so the interpolated surface area is exactly
22000 acres; the Numeric Coercer's zero default is not what applies here. -/
theorem defaultLevel_spec :
    (∀ cd : TelemetryRecord,
        jsParseFloat cd.waterLevel = none ∨ jsParseFloat cd.waterLevel = some 0 →
        currentLevel cd = 552 ∧ surfaceAreaAcres cd = 22000) ∧
    currentLevel { waterLevel := none } = 552 ∧
    currentLevel { waterLevel := some "abc" } = 552 ∧
    currentLevel { waterLevel := some "0" } = 552 ∧
    surfaceAreaAcres { waterLevel := some "0" } = 22000 := by
  have hgen : ∀ cd : TelemetryRecord,
      jsParseFloat cd.waterLevel = none ∨ jsParseFloat cd.waterLevel = some 0 →
      currentLevel cd = 552 ∧ surfaceAreaAcres cd = 22000 := by
    intro cd h
    have hl : currentLevel cd = 552 := by
      rcases h with h | h
      · rw [currentLevel, h, jsOr_none]
      · rw [currentLevel, h, jsOr_some_zero]
    refine ⟨hl, ?_⟩
    rw [surfaceAreaAcres, hl]
    norm_num
  refine ⟨hgen, rfl, ?_, ?_, ?_⟩
  · exact (hgen { waterLevel := some "abc" } (Or.inl parseFloat_abc)).1
  · exact (hgen { waterLevel := some "0" } (Or.inr parseFloat_zero)).1
  · exact (hgen { waterLevel := some "0" } (Or.inr parseFloat_zero)).2

/-- Witness for the general clause of `defaultLevel_spec`. -/
theorem defaultLevel_spec_witness :
    currentLevel { waterLevel := some "dry" } = 552 ∧
    surfaceAreaAcres { waterLevel := some "dry" } = 22000 :=
  defaultLevel_spec.1 { waterLevel := some "dry" }
    (Or.inl (jsParseFloatStr_none_of "dry" (by decide)))

/-! ## Claim C3 -/

lemma recentOverride_cons (r0 r1 r2 : TelemetryRecord) (rest : List TelemetryRecord)
    (tc : Trend × Confidence) (a c : ℚ)
    (ha : jsParseFloat r0.waterLevel = some a)
    (hc : jsParseFloat r2.waterLevel = some c) :
    recentOverride (some (r0 :: r1 :: r2 :: rest)) tc =
      if 1/20 < |a - c| then
        ((if 0 < a - c then Trend.rising else Trend.falling), Confidence.high)
      else tc := by
  have hlen3 : 3 ≤ (r0 :: r1 :: r2 :: rest).length := by
    simp [List.length_cons]
  simp only [recentOverride]
  rw [if_pos hlen3]
  simp only [List.take_succ_cons, List.take_zero, List.map_cons,
    List.getElem?_cons_zero, List.getElem?_cons_succ]
  rw [ha, hc]

/-- The three recent samples of the trend example, newest first, showing a 0.2 ft
fall over the window. -/
def overrideSamples : List TelemetryRecord :=
  [{ waterLevel := some "566.0" }, { waterLevel := some "566.1" }, { waterLevel := some "566.2" }]

lemma parseFloat_5660 : jsParseFloat (some "566.0") = some 566 :=
  jsParseFloatStr_eq_of "566.0" ⟨1, 566, 0, 1, 0⟩ 566 (by decide) (by norm_num [floatValue])

lemma parseFloat_5662 : jsParseFloat (some "566.2") = some (2831/5) :=
  jsParseFloatStr_eq_of "566.2" ⟨1, 566, 2, 1, 0⟩ (2831/5) (by decide) (by norm_num [floatValue])

lemma override_example_eval (tc : Trend × Confidence) :
    recentOverride (some overrideSamples) tc = (Trend.falling, Confidence.high) := by
  unfold overrideSamples
  rw [recentOverride_cons _ _ _ _ tc 566 (2831/5) parseFloat_5660 parseFloat_5662]
  rw [show (566 : ℚ) - 2831/5 = -(1/5) from by norm_num]
  rw [abs_neg, abs_of_pos (show (0:ℚ) < 1/5 from by norm_num)]
  rw [if_pos (show (1:ℚ)/20 < 1/5 from by norm_num)]
  rw [if_neg (show ¬ (0:ℚ) < -(1/5) from by norm_num)]

lemma abs_hourlyChange_example : |hourlyChangeFeet trendExampleRecord| = 1/2783 := by
  rw [hourlyChange_example, abs_of_pos (show (0:ℚ) < 1/2783 from by norm_num)]

/-- C3: the trend estimator computes `hourlyChangeFeet = (netFlow × 3600) /
(surfaceAreaAcres × 43560)` with the surface area interpolated linearly between
22000 acres at 552 ft and 24000 acres at 580 ft, classifies `|Δ| > 0.01` as
high-confidence rising/falling, `|Δ| > 0.005` as medium, and anything smaller as
low-confidence stable; on inflow 1000, outflow 900, level 566 the net flow is
100, the rate is positive and below 0.01 ft/hr, and the confidence is low —
unless at least 3 recent samples show a level change above 0.05 ft over the most
recent 3 samples, in which case the direction follows that change at high
confidence, overriding the flow-based estimate. -/
theorem trend_estimator_spec :
    (∀ cd : TelemetryRecord,
        (calculateWaterLevelTrend (some cd) none).hourlyChange
            = (netFlow cd * 3600) / (surfaceAreaAcres cd * 43560) ∧
        surfaceAreaAcres cd
            = 22000 + (currentLevel cd - 552) * ((24000 - 22000) / (580 - 552)) ∧
        (0.01 < |hourlyChangeFeet cd| →
          (calculateWaterLevelTrend (some cd) none).trend
              = (if 0 < hourlyChangeFeet cd then Trend.rising else Trend.falling) ∧
          (calculateWaterLevelTrend (some cd) none).confidence = Confidence.high) ∧
        (¬ 0.01 < |hourlyChangeFeet cd| → 0.005 < |hourlyChangeFeet cd| →
          (calculateWaterLevelTrend (some cd) none).trend
              = (if 0 < hourlyChangeFeet cd then Trend.rising else Trend.falling) ∧
          (calculateWaterLevelTrend (some cd) none).confidence = Confidence.medium) ∧
        (¬ 0.005 < |hourlyChangeFeet cd| →
          (calculateWaterLevelTrend (some cd) none).trend = Trend.stable ∧
          (calculateWaterLevelTrend (some cd) none).confidence = Confidence.low)) ∧
    (∀ (cd r0 r1 r2 : TelemetryRecord) (rest : List TelemetryRecord) (a c : ℚ),
        jsParseFloat r0.waterLevel = some a →
        jsParseFloat r2.waterLevel = some c →
        0.05 < |a - c| →
        (calculateWaterLevelTrend (some cd) (some (r0 :: r1 :: r2 :: rest))).trend
            = (if 0 < a - c then Trend.rising else Trend.falling) ∧
        (calculateWaterLevelTrend (some cd) (some (r0 :: r1 :: r2 :: rest))).confidence
            = Confidence.high) ∧
    netFlow trendExampleRecord = 100 ∧
    0 < hourlyChangeFeet trendExampleRecord ∧
    hourlyChangeFeet trendExampleRecord < 0.01 ∧
    (calculateWaterLevelTrend (some trendExampleRecord) none).trend = Trend.stable ∧
    (calculateWaterLevelTrend (some trendExampleRecord) none).confidence = Confidence.low ∧
    (calculateWaterLevelTrend (some trendExampleRecord) (some overrideSamples)).trend
        = Trend.falling ∧
    (calculateWaterLevelTrend (some trendExampleRecord) (some overrideSamples)).confidence
        = Confidence.high := by
  have hflow : ∀ cd : TelemetryRecord,
      (calculateWaterLevelTrend (some cd) none).trend
          = (flowTrendConf (hourlyChangeFeet cd)).1 ∧
      (calculateWaterLevelTrend (some cd) none).confidence
          = (flowTrendConf (hourlyChangeFeet cd)).2 := fun cd => ⟨rfl, rfl⟩
  have hth1 : ((0.01 : ℚ)) = 1/100 := by norm_num
  have hth2 : ((0.005 : ℚ)) = 1/200 := by norm_num
  refine ⟨?_, ?_, netFlow_example, ?_, ?_, ?_, ?_, ?_, ?_⟩
  · intro cd
    refine ⟨rfl, by rw [surfaceAreaAcres]; ring, ?_, ?_, ?_⟩
    · intro h1
      rw [hth1] at h1
      rw [(hflow cd).1, (hflow cd).2, flowTrendConf, if_pos h1]
      exact ⟨rfl, rfl⟩
    · intro h1 h2
      rw [hth1] at h1
      rw [hth2] at h2
      rw [(hflow cd).1, (hflow cd).2, flowTrendConf, if_neg h1, if_pos h2]
      exact ⟨rfl, rfl⟩
    · intro h2
      rw [hth2] at h2
      have h1 : ¬ (1:ℚ)/100 < |hourlyChangeFeet cd| := fun hc =>
        h2 (lt_trans (by norm_num) hc)
      rw [(hflow cd).1, (hflow cd).2, flowTrendConf, if_neg h1, if_neg h2]
      exact ⟨rfl, rfl⟩
  · intro cd r0 r1 r2 rest a c ha hc habs
    rw [show ((0.05 : ℚ)) = 1/20 from by norm_num] at habs
    have hov : recentOverride (some (r0 :: r1 :: r2 :: rest))
        (flowTrendConf (hourlyChangeFeet cd))
          = ((if 0 < a - c then Trend.rising else Trend.falling), Confidence.high) := by
      rw [recentOverride_cons _ _ _ _ _ a c ha hc, if_pos habs]
    constructor
    · show (recentOverride (some (r0 :: r1 :: r2 :: rest))
          (flowTrendConf (hourlyChangeFeet cd))).1 = _
      rw [hov]
    · show (recentOverride (some (r0 :: r1 :: r2 :: rest))
          (flowTrendConf (hourlyChangeFeet cd))).2 = _
      rw [hov]
  · rw [hourlyChange_example]
    norm_num
  · rw [hourlyChange_example]
    norm_num
  · show (flowTrendConf (hourlyChangeFeet trendExampleRecord)).1 = Trend.stable
    rw [flowTrendConf, if_neg (by rw [abs_hourlyChange_example]; norm_num),
      if_neg (by rw [abs_hourlyChange_example]; norm_num)]
  · show (flowTrendConf (hourlyChangeFeet trendExampleRecord)).2 = Confidence.low
    rw [flowTrendConf, if_neg (by rw [abs_hourlyChange_example]; norm_num),
      if_neg (by rw [abs_hourlyChange_example]; norm_num)]
  · show (recentOverride (some overrideSamples)
        (flowTrendConf (hourlyChangeFeet trendExampleRecord))).1 = Trend.falling
    rw [override_example_eval]
  · show (recentOverride (some overrideSamples)
        (flowTrendConf (hourlyChangeFeet trendExampleRecord))).2 = Confidence.high
    rw [override_example_eval]

/-- A record with a large inflow, used as the concrete high-rate instance. -/
def highFlowRecord : TelemetryRecord := { inflow := some "100000", waterLevel := some "566" }

/-- Witness for the universally quantified clauses of `trend_estimator_spec`:
with inflow 100000, outflow missing and level 566 the rate clears the 0.01 ft/hr
threshold and the flow classification is high-confidence rising. -/
theorem trend_estimator_spec_witness :
    (calculateWaterLevelTrend (some highFlowRecord) none).confidence = Confidence.high := by
  have hn : netFlow highFlowRecord = 100000 := by
    have hp : jsParseFloat (some "100000") = some 100000 :=
      jsParseFloatStr_eq_of "100000" ⟨1, 100000, 0, 0, 0⟩ 100000 (by decide)
        (by norm_num [floatValue])
    rw [netFlow, inflowOf, outflowOf]
    show jsOr (jsParseFloat (some "100000")) 0 - jsOr (jsParseFloat none) 0 = 100000
    rw [jsParseFloat_none, jsOr_none, hp, jsOr_some_of_ne _ _ (by norm_num)]
    norm_num
  have hl : currentLevel highFlowRecord = 566 := by
    rw [currentLevel]
    show jsOr (jsParseFloat (some "566")) 552 = 566
    rw [parseFloat_566, jsOr_some_of_ne _ _ (by norm_num)]
  have hs : surfaceAreaAcres highFlowRecord = 23000 := by
    rw [surfaceAreaAcres, hl]
    norm_num
  have hh : hourlyChangeFeet highFlowRecord = 1000/2783 := by
    rw [hourlyChangeFeet, hn, hs]
    norm_num
  exact ((trend_estimator_spec.1 _).2.2.1
    (by rw [hh, abs_of_pos (show (0:ℚ) < 1000/2783 from by norm_num)]; norm_num)).2

/-! ## Claims C4 and C7: axis-domain calculator -/

lemma jsMin_fin (a b : ℚ) : jsMin (JSNum.fin a) (JSNum.fin b) = JSNum.fin (min a b) := rfl

lemma jsMax_fin (a b : ℚ) : jsMax (JSNum.fin a) (JSNum.fin b) = JSNum.fin (max a b) := rfl

lemma jsSub_fin (a b : ℚ) : jsSub (JSNum.fin a) (JSNum.fin b) = JSNum.fin (a - b) := rfl

lemma jsAdd_fin (a b : ℚ) : jsAdd (JSNum.fin a) (JSNum.fin b) = JSNum.fin (a + b) := rfl

lemma jsMul_fin (a b : ℚ) : jsMul (JSNum.fin a) (JSNum.fin b) = JSNum.fin (a * b) := rfl

lemma jsMul_posInf_pos (b : ℚ) (hb : 0 < b) :
    jsMul JSNum.posInf (JSNum.fin b) = JSNum.posInf := by
  show (if b = 0 then JSNum.nan else if 0 < b then JSNum.posInf else JSNum.negInf) = _
  rw [if_neg (ne_of_gt hb), if_pos hb]

lemma foldl_jsMin_fin (a : ℚ) (qs : List ℚ) :
    (qs.map JSNum.fin).foldl jsMin (JSNum.fin a) = JSNum.fin (qs.foldl min a) := by
  induction qs generalizing a with
  | nil => rfl
  | cons q t ih =>
    simp only [List.map_cons, List.foldl_cons]
    exact ih (min a q)

lemma foldl_jsMax_fin (a : ℚ) (qs : List ℚ) :
    (qs.map JSNum.fin).foldl jsMax (JSNum.fin a) = JSNum.fin (qs.foldl max a) := by
  induction qs generalizing a with
  | nil => rfl
  | cons q t ih =>
    simp only [List.map_cons, List.foldl_cons]
    exact ih (max a q)

lemma calculateAxisDomain_congr (d1 d2 : List (Option JSNum))
    (h : validAxisData d1 = validAxisData d2) :
    calculateAxisDomain d1 = calculateAxisDomain d2 := by
  simp only [calculateAxisDomain, h]

lemma validAxisData_map_fin (qs : List ℚ) :
    validAxisData (qs.map (fun x => some (JSNum.fin x))) = qs.map JSNum.fin := by
  induction qs with
  | nil => rfl
  | cons q t ih =>
    simp only [List.map_cons]
    rw [show validAxisData (some (JSNum.fin q) :: t.map (fun x => some (JSNum.fin x)))
        = JSNum.fin q :: validAxisData (t.map (fun x => some (JSNum.fin x))) from rfl]
    rw [ih]

lemma foldl_jsMin_const_aux (v : ℚ) (t : List JSNum) (ht : ∀ y ∈ t, y = JSNum.fin v) :
    t.foldl jsMin (JSNum.fin v) = JSNum.fin v := by
  induction t with
  | nil => rfl
  | cons z t2 ih =>
    have hz : z = JSNum.fin v := ht z (List.mem_cons_self z t2)
    subst hz
    rw [List.foldl_cons, jsMin_fin, min_self]
    exact ih (fun y hy => ht y (List.mem_cons_of_mem _ hy))

lemma foldl_jsMax_const_aux (v : ℚ) (t : List JSNum) (ht : ∀ y ∈ t, y = JSNum.fin v) :
    t.foldl jsMax (JSNum.fin v) = JSNum.fin v := by
  induction t with
  | nil => rfl
  | cons z t2 ih =>
    have hz : z = JSNum.fin v := ht z (List.mem_cons_self z t2)
    subst hz
    rw [List.foldl_cons, jsMax_fin, max_self]
    exact ih (fun y hy => ht y (List.mem_cons_of_mem _ hy))

lemma foldl_jsMin_posInf_const (v : ℚ) (L : List JSNum) (hne : L ≠ [])
    (h : ∀ x ∈ L, x = JSNum.fin v) : L.foldl jsMin JSNum.posInf = JSNum.fin v := by
  rcases List.exists_cons_of_ne_nil hne with ⟨x, t, hx⟩
  subst hx
  have hxv : x = JSNum.fin v := h x (List.mem_cons_self x t)
  subst hxv
  rw [List.foldl_cons, show jsMin JSNum.posInf (JSNum.fin v) = JSNum.fin v from rfl]
  exact foldl_jsMin_const_aux v t (fun y hy => h y (List.mem_cons_of_mem _ hy))

lemma foldl_jsMax_negInf_const (v : ℚ) (L : List JSNum) (hne : L ≠ [])
    (h : ∀ x ∈ L, x = JSNum.fin v) : L.foldl jsMax JSNum.negInf = JSNum.fin v := by
  rcases List.exists_cons_of_ne_nil hne with ⟨x, t, hx⟩
  subst hx
  have hxv : x = JSNum.fin v := h x (List.mem_cons_self x t)
  subst hxv
  rw [List.foldl_cons, show jsMax JSNum.negInf (JSNum.fin v) = JSNum.fin v from rfl]
  exact foldl_jsMax_const_aux v t (fun y hy => h y (List.mem_cons_of_mem _ hy))

/-- C4 counterexample: the claim says non-finite entries are filtered out, so a
list containing Infinity behaves like its finite part.  The source filter keeps
the infinities (it only rejects `NaN` and undefined), and an infinite entry
floods the padded bounds: `[1, +∞]` yields `(-∞, +∞)` while `[1]` yields the flat
band `(0.9, 1.1)`. -/
theorem axisDomain_infinity_counterexample :
    calculateAxisDomain [some (JSNum.fin 1), some JSNum.posInf]
      ≠ calculateAxisDomain [some (JSNum.fin 1)] := by
  have hL : calculateAxisDomain [some (JSNum.fin 1), some JSNum.posInf]
      = (JSNum.negInf, JSNum.posInf) := by
    show (jsSub (JSNum.fin 1) (jsMul (jsSub JSNum.posInf (JSNum.fin 1)) (JSNum.fin (1/20))),
        jsAdd JSNum.posInf (jsMul (jsSub JSNum.posInf (JSNum.fin 1)) (JSNum.fin (1/20)))) = _
    rw [show jsSub JSNum.posInf (JSNum.fin 1) = JSNum.posInf from rfl]
    rw [jsMul_posInf_pos (1/20) (by norm_num)]
    rfl
  have hR : calculateAxisDomain [some (JSNum.fin 1)]
      = (JSNum.fin (1 * (9/10)), JSNum.fin (1 * (11/10))) := by
    show (jsMul (JSNum.fin 1) (JSNum.fin (9/10)), jsMul (JSNum.fin 1) (JSNum.fin (11/10))) = _
    rw [jsMul_fin, jsMul_fin]
  rw [hL, hR]
  simp

/-- C4 amended: the filter drops only `NaN` and undefined entries (infinite
entries are retained and flood the result); the defaults and padded bounds are as
claimed: empty data yields `[0, 100]`, `[5,5,5]` yields `[4.5, 5.5]`,
`[1,2,3,4,10]` yields `[0.55, 10.45]`, and whenever the finite minimum and
maximum differ the result is `[min − p, max + p]` with `p = 0.05 (max − min)`. -/
theorem axisDomain_amended_spec :
    (∀ (l1 l2 : List (Option JSNum)),
        calculateAxisDomain (l1 ++ some JSNum.nan :: l2) = calculateAxisDomain (l1 ++ l2) ∧
        calculateAxisDomain (l1 ++ none :: l2) = calculateAxisDomain (l1 ++ l2)) ∧
    calculateAxisDomain [] = (JSNum.fin 0, JSNum.fin 100) ∧
    calculateAxisDomain [some (JSNum.fin 5), some (JSNum.fin 5), some (JSNum.fin 5)]
        = (JSNum.fin (9/2), JSNum.fin (11/2)) ∧
    calculateAxisDomain [some (JSNum.fin 1), some (JSNum.fin 2), some (JSNum.fin 3),
        some (JSNum.fin 4), some (JSNum.fin 10)]
        = (JSNum.fin (11/20), JSNum.fin (209/20)) ∧
    (∀ (q : ℚ) (qs : List ℚ),
        qs.foldl min q ≠ qs.foldl max q →
        calculateAxisDomain ((q :: qs).map (fun x => some (JSNum.fin x)))
          = (JSNum.fin (qs.foldl min q - (qs.foldl max q - qs.foldl min q) * (1/20)),
             JSNum.fin (qs.foldl max q + (qs.foldl max q - qs.foldl min q) * (1/20)))) := by
  refine ⟨?_, rfl, ?_, ?_, ?_⟩
  · intro l1 l2
    constructor
    · refine calculateAxisDomain_congr _ _ ?_
      simp [validAxisData, List.filterMap_append]
    · refine calculateAxisDomain_congr _ _ ?_
      simp [validAxisData, List.filterMap_append]
  · show (jsMul (jsMin (jsMin (JSNum.fin 5) (JSNum.fin 5)) (JSNum.fin 5)) (JSNum.fin (9/10)),
        jsMul (jsMin (jsMin (JSNum.fin 5) (JSNum.fin 5)) (JSNum.fin 5)) (JSNum.fin (11/10))) = _
    simp only [jsMin_fin, min_self, jsMul_fin]
    simp only [Prod.mk.injEq, JSNum.fin.injEq]
    norm_num
  · have hmn : ((([1, 2, 3, 4, 10] : List ℚ).map JSNum.fin).foldl jsMin JSNum.posInf)
        = JSNum.fin 1 := by
      rw [List.map_cons, List.foldl_cons]
      rw [show jsMin JSNum.posInf (JSNum.fin 1) = JSNum.fin 1 from rfl]
      rw [foldl_jsMin_fin]
      norm_num [List.foldl, min_def]
    have hmx : ((([1, 2, 3, 4, 10] : List ℚ).map JSNum.fin).foldl jsMax JSNum.negInf)
        = JSNum.fin 10 := by
      rw [List.map_cons, List.foldl_cons]
      rw [show jsMax JSNum.negInf (JSNum.fin 1) = JSNum.fin 1 from rfl]
      rw [foldl_jsMax_fin]
      norm_num [List.foldl, max_def]
    have hvd : validAxisData [some (JSNum.fin 1), some (JSNum.fin 2), some (JSNum.fin 3),
        some (JSNum.fin 4), some (JSNum.fin 10)] = ([1, 2, 3, 4, 10] : List ℚ).map JSNum.fin := by
      simp [validAxisData]
    simp only [calculateAxisDomain, hvd]
    rw [if_neg (by simp)]
    rw [hmn, hmx]
    rw [show jsEq (JSNum.fin 1) (JSNum.fin 10) = false from by simp [jsEq]]
    simp only [Bool.false_eq_true, if_false]
    rw [jsSub_fin, jsMul_fin, jsSub_fin, jsAdd_fin]
    simp only [Prod.mk.injEq, JSNum.fin.injEq]
    norm_num
  · intro q qs hne
    have hvd : validAxisData ((q :: qs).map (fun x => some (JSNum.fin x)))
        = (q :: qs).map JSNum.fin := validAxisData_map_fin (q :: qs)
    have hmn : (((q :: qs).map JSNum.fin).foldl jsMin JSNum.posInf)
        = JSNum.fin (qs.foldl min q) := by
      rw [List.map_cons, List.foldl_cons]
      rw [show jsMin JSNum.posInf (JSNum.fin q) = JSNum.fin q from rfl]
      exact foldl_jsMin_fin q qs
    have hmx : (((q :: qs).map JSNum.fin).foldl jsMax JSNum.negInf)
        = JSNum.fin (qs.foldl max q) := by
      rw [List.map_cons, List.foldl_cons]
      rw [show jsMax JSNum.negInf (JSNum.fin q) = JSNum.fin q from rfl]
      exact foldl_jsMax_fin q qs
    simp only [calculateAxisDomain, hvd]
    rw [if_neg (by simp)]
    rw [hmn, hmx]
    rw [show jsEq (JSNum.fin (qs.foldl min q)) (JSNum.fin (qs.foldl max q)) = false from by
      simp [jsEq, hne]]
    simp only [Bool.false_eq_true, if_false]
    rw [jsSub_fin, jsMul_fin, jsSub_fin, jsAdd_fin]

/-- Witness for the quantified clauses of `axisDomain_amended_spec`. -/
theorem axisDomain_amended_spec_witness :
    calculateAxisDomain [some (JSNum.fin 1), some (JSNum.fin 2)]
      = (JSNum.fin (19/20), JSNum.fin (41/20)) := by
  have hmin : ([2] : List ℚ).foldl min 1 = 1 := by
    simp only [List.foldl_cons, List.foldl_nil]
    exact min_eq_left (by norm_num)
  have hmax : ([2] : List ℚ).foldl max 1 = 2 := by
    simp only [List.foldl_cons, List.foldl_nil]
    exact max_eq_right (by norm_num)
  have h := axisDomain_amended_spec.2.2.2.2 1 [2] (by rw [hmin, hmax]; norm_num)
  rw [hmin, hmax] at h
  rw [show (1:ℚ) - (2 - 1) * (1/20) = 19/20 from by norm_num] at h
  rw [show (2:ℚ) + (2 - 1) * (1/20) = 41/20 from by norm_num] at h
  simpa using h

/-- C7 counterexample: the claim says the flat-series band `[0.9v, 1.1v]` never
has zero height, for every equal value `v` including `v = 0`.  At `v = 0` the
band is `[0, 0]`: both bounds coincide. -/
theorem axisDomain_flat_zero_counterexample :
    calculateAxisDomain [some (JSNum.fin 0)] = (JSNum.fin 0, JSNum.fin 0) := by
  show (jsMul (JSNum.fin 0) (JSNum.fin (9/10)), jsMul (JSNum.fin 0) (JSNum.fin (11/10))) = _
  rw [jsMul_fin, jsMul_fin]
  simp only [Prod.mk.injEq, JSNum.fin.injEq]
  norm_num

/-- C7 amended: a non-empty all-equal series of value `v` yields the band
`[0.9v, 1.1v]`; its low bound is strictly below its high bound exactly when
`0 < v` — at `v = 0` the band degenerates to `[0, 0]`, and for negative `v` the
bounds come out inverted. -/
theorem axisDomain_flat_amended (l : List (Option JSNum)) (v : ℚ)
    (hne : validAxisData l ≠ [])
    (hall : ∀ x ∈ validAxisData l, x = JSNum.fin v) :
    calculateAxisDomain l = (JSNum.fin (v * (9/10)), JSNum.fin (v * (11/10))) ∧
    (0 < v → v * (9/10) < v * (11/10)) ∧
    (v = 0 → v * (9/10) = v * (11/10)) ∧
    (v < 0 → v * (11/10) < v * (9/10)) := by
  have hmn := foldl_jsMin_posInf_const v (validAxisData l) hne hall
  have hmx := foldl_jsMax_negInf_const v (validAxisData l) hne hall
  refine ⟨?_, ?_, ?_, ?_⟩
  · simp only [calculateAxisDomain]
    rw [if_neg (by simpa [List.length_eq_zero] using hne)]
    rw [hmn, hmx]
    rw [show jsEq (JSNum.fin v) (JSNum.fin v) = true from by simp [jsEq]]
    rw [if_pos rfl]
    rw [jsMul_fin, jsMul_fin]
  · intro hv
    exact (mul_lt_mul_left hv).mpr (by norm_num)
  · intro hv
    rw [hv]
    ring
  · intro hv
    exact (mul_lt_mul_left_of_neg hv).mpr (show (9:ℚ)/10 < 11/10 from by norm_num)

/-- Witness for `axisDomain_flat_amended` on the flat series `[5, 5, 5]`. -/
theorem axisDomain_flat_amended_witness :
    calculateAxisDomain [some (JSNum.fin 5), some (JSNum.fin 5), some (JSNum.fin 5)]
        = (JSNum.fin (5 * (9/10)), JSNum.fin (5 * (11/10))) ∧
    (5 : ℚ) * (9/10) < 5 * (11/10) := by
  have h := axisDomain_flat_amended
    [some (JSNum.fin 5), some (JSNum.fin 5), some (JSNum.fin 5)] 5 (by decide) (by decide)
  exact ⟨h.1, h.2.1 (by norm_num)⟩

/-! ## Claim C2 -/

lemma keepRecord_eq_some (now start finish : Int) (it : Option TelemetryRecord)
    (r : TelemetryRecord) (h : keepRecord now start finish it = some r) :
    ∃ d, r.date = some d ∧ d ≠ "" ∧
      ∃ t, parseDateTime now d r.time = some t ∧ start ≤ t ∧ t ≤ finish := by
  cases it with
  | none => simp [keepRecord] at h
  | some item =>
    cases hd : item.date with
    | none => simp [keepRecord, hd] at h
    | some d =>
      by_cases hde : d = ""
      · simp [keepRecord, hd, hde] at h
      · cases hp : parseDateTime now d item.time with
        | none => simp [keepRecord, hd, if_neg hde, hp] at h
        | some t =>
          simp only [keepRecord, hd, if_neg hde, hp] at h
          by_cases hin : start ≤ t ∧ t ≤ finish
          · rw [if_pos hin] at h
            obtain rfl := Option.some.inj h
            exact ⟨d, hd, hde, t, hp, hin.1, hin.2⟩
          · rw [if_neg hin] at h
            exact absurd h (by simp)

lemma sortLe_trans (now : Int) (a b c : TelemetryRecord)
    (hab : (decide (sortKey now a ≤ sortKey now b)) = true)
    (hbc : (decide (sortKey now b ≤ sortKey now c)) = true) :
    (decide (sortKey now a ≤ sortKey now c)) = true := by
  simp only [decide_eq_true_eq] at *
  exact le_trans hab hbc

lemma sortLe_total (now : Int) (a b : TelemetryRecord) :
    ((decide (sortKey now a ≤ sortKey now b)) || (decide (sortKey now b ≤ sortKey now a)))
      = true := by
  simp only [Bool.or_eq_true, decide_eq_true_eq]
  exact le_total _ _

/-- C2: every record produced by the range filter has a resolved timestamp inside
the inclusive interval `[start, finish]`; records with an absent (or empty, hence
falsy) date are excluded; the result is sorted ascending by resolved timestamp
whatever the input order; and records of identical timestamp keep their relative
input order (the per-timestamp slices of the output and of the unsorted filtered
input coincide — stability). -/
theorem filterByRange_spec (now : Int) (records : List (Option TelemetryRecord))
    (start finish : Int) :
    (∀ r ∈ filterByRange now records start finish,
        ∃ t, parseDateTime now (r.date.getD "") r.time = some t ∧
          start ≤ t ∧ t ≤ finish) ∧
    (∀ r ∈ filterByRange now records start finish, r.date ≠ none ∧ r.date ≠ some "") ∧
    List.Pairwise (fun a b => sortKey now a ≤ sortKey now b)
        (filterByRange now records start finish) ∧
    (∀ t : Int,
        (filterByRange now records start finish).filter (fun r => sortKey now r == t)
          = (records.filterMap (keepRecord now start finish)).filter
              (fun r => sortKey now r == t)) := by
  have hmem : ∀ r ∈ filterByRange now records start finish,
      ∃ d, r.date = some d ∧ d ≠ "" ∧
        ∃ t, parseDateTime now d r.time = some t ∧ start ≤ t ∧ t ≤ finish := by
    intro r hr
    rw [filterByRange, List.mem_mergeSort, List.mem_filterMap] at hr
    obtain ⟨it, _, hkeep⟩ := hr
    exact keepRecord_eq_some now start finish it r hkeep
  refine ⟨?_, ?_, ?_, ?_⟩
  · intro r hr
    obtain ⟨d, hd, _, t, hp, h1, h2⟩ := hmem r hr
    refine ⟨t, ?_, h1, h2⟩
    rw [hd, Option.getD_some]
    exact hp
  · intro r hr
    obtain ⟨d, hd, hde, _⟩ := hmem r hr
    rw [hd]
    exact ⟨by simp, by simp [hde]⟩
  · have hs := List.sorted_mergeSort (sortLe_trans now) (sortLe_total now)
      (records.filterMap (keepRecord now start finish))
    rw [filterByRange]
    exact hs.imp (fun h => of_decide_eq_true h)
  · intro t
    have hpair : ((records.filterMap (keepRecord now start finish)).filter
        (fun r => sortKey now r == t)).Pairwise
          (fun a b => decide (sortKey now a ≤ sortKey now b)) := by
      apply List.pairwise_of_forall_mem_list
      intro a ha b hb
      rw [List.mem_filter] at ha hb
      have ha2 : sortKey now a = t := by simpa using ha.2
      have hb2 : sortKey now b = t := by simpa using hb.2
      simp [ha2, hb2]
    have hsub : List.Sublist
        ((records.filterMap (keepRecord now start finish)).filter
          (fun r => sortKey now r == t))
        (filterByRange now records start finish) := by
      rw [filterByRange]
      exact List.sublist_mergeSort (sortLe_trans now) (sortLe_total now) hpair
        (List.filter_sublist _)
    have hfsub : List.Sublist
        ((records.filterMap (keepRecord now start finish)).filter
          (fun r => sortKey now r == t))
        ((filterByRange now records start finish).filter
          (fun r => sortKey now r == t)) := by
      have h2 := hsub.filter (fun r => sortKey now r == t)
      rwa [List.filter_eq_self.mpr
        (fun a ha => (List.mem_filter.mp ha).2)] at h2
    have hperm : List.Perm
        ((filterByRange now records start finish).filter
          (fun r => sortKey now r == t))
        ((records.filterMap (keepRecord now start finish)).filter
          (fun r => sortKey now r == t)) := by
      rw [filterByRange]
      exact (List.mergeSort_perm _ _).filter _
    exact (hfsub.eq_of_length hperm.length_eq.symm).symm

/-- Witness for `filterByRange_spec`: on a concrete two-record input the output
is sorted by resolved timestamp. -/
theorem filterByRange_spec_witness :
    List.Pairwise (fun a b => sortKey 0 a ≤ sortKey 0 b)
      (filterByRange 0 [some { date := some "02.01.2024" }, some { date := some "01.01.2024" }]
        1700000000000 1720000000000) :=
  (filterByRange_spec 0
    [some { date := some "02.01.2024" }, some { date := some "01.01.2024" }]
    1700000000000 1720000000000).2.2.1

end WhiteRiver
